import Mathlib

/-!
Verification of the typed SRT control layer (src/src/socket.rs) against its
design specification.  The socket wrapper is embedded shallowly: each accessor
becomes a Lean function from its Rust arguments (and, where a native call's
result matters, from that raw signed result) to a record describing exactly
what is handed to the native engine, so every claim about marshaling widths,
option identifiers, byte-string policies and control flow can be settled by
computation and proof.  Machine strings crossing the boundary are modelled by
their byte sequences (`List Nat`), machine integers by `Int`/`Nat` with the
byte widths fixed by the 64-bit unix ABI the source targets.
-/

namespace SrtRs

/-- Native option identifiers (`srt::SRT_SOCKOPT`) referenced by socket.rs. -/
inductive SRT_SOCKOPT
  | SRTO_BINDTODEVICE
  | SRTO_CONGESTION
  | SRTO_CONNTIMEO
  | SRTO_DRIFTTRACER
  | SRTO_ENFORCEDENCRYPTION
  | SRTO_EVENT
  | SRTO_FC
  | SRTO_INPUTBW
  | SRTO_IPTOS
  | SRTO_IPTTL
  | SRTO_IPV6ONLY
  | SRTO_ISN
  | SRTO_KMPREANNOUNCE
  | SRTO_KMREFRESHRATE
  | SRTO_LATENCY
  | SRTO_LINGER
  | SRTO_LOSSMAXTTL
  | SRTO_MAXBW
  | SRTO_MESSAGEAPI
  | SRTO_MINVERSION
  | SRTO_MSS
  | SRTO_NAKREPORT
  | SRTO_OHEADBW
  | SRTO_PACKETFILTER
  | SRTO_PASSPHRASE
  | SRTO_PAYLOADSIZE
  | SRTO_PBKEYLEN
  | SRTO_PEERIDLETIMEO
  | SRTO_PEERLATENCY
  | SRTO_PEERVERSION
  | SRTO_RCVBUF
  | SRTO_RCVDATA
  | SRTO_RCVKMSTATE
  | SRTO_RCVLATENCY
  | SRTO_RCVSYN
  | SRTO_RCVTIMEO
  | SRTO_RENDEZVOUS
  | SRTO_RETRANSMITALGO
  | SRTO_REUSEADDR
  | SRTO_SENDER
  | SRTO_SNDBUF
  | SRTO_SNDDATA
  | SRTO_SNDDROPDELAY
  | SRTO_SNDKMSTATE
  | SRTO_SNDSYN
  | SRTO_SNDTIMEO
  | SRTO_STATE
  | SRTO_STREAMID
  | SRTO_TLPKTDROP
  | SRTO_TRANSTYPE
  | SRTO_TSBPDMODE
  | SRTO_UDP_RCVBUF
  | SRTO_UDP_SNDBUF
  | SRTO_VERSION
deriving DecidableEq, Repr

/-- Rust value types whose pointers cross the marshal boundary in socket.rs,
on the 64-bit unix target the source compiles for: `bool` is 1 byte (fixed by
the Rust ABI), `c_int`/`i32` are 4, `i64` is 8, and `libc::linger` is two
`c_int` fields, 8 bytes.  `bytes n` is an `n`-byte buffer. -/
inductive RustTy
  | bool
  | i32
  | i64
  | lingerPair
  | bytes (n : Nat)
deriving DecidableEq, Repr

/-- Byte width of the native representation of a `RustTy`. -/
def RustTy.byteWidth : RustTy → Nat
  | .bool => 1
  | .i32 => 4
  | .i64 => 8
  | .lingerPair => 8
  | .bytes n => n

/-- One `srt_getsockflag` / `srt_setsockflag` invocation with a fixed-width
buffer: the option identifier, the Rust type of the value whose pointer is
passed, and the byte length passed in the length argument (`optlen`). -/
structure FlagCall where
  opt : SRT_SOCKOPT
  bufTy : RustTy
  optlen : Nat
deriving DecidableEq, Repr

/-- The central marshaling invariant of the layer: the byte width handed to
the native call equals the width of the value type actually passed. -/
def FlagCall.widthMatches (c : FlagCall) : Bool :=
  c.optlen == c.bufTy.byteWidth

/-- `set_time_drift_tracer(&self, enable: bool)` (socket.rs 811-821): the
buffer is `&enable as *const bool`, the length argument is
`mem::size_of::<i64>() as c_int`. -/
def set_time_drift_tracer_call : FlagCall :=
  { opt := .SRTO_DRIFTTRACER, bufTy := .bool, optlen := RustTy.byteWidth .i64 }

/-- `get_input_bandwith(&self)` (socket.rs 341-353): the buffer is
`&mut bytes_per_sec as *mut i64`, the length argument is
`mem::size_of::<i32>() as i32`. -/
def get_input_bandwith_call : FlagCall :=
  { opt := .SRTO_INPUTBW, bufTy := .i64, optlen := RustTy.byteWidth .i32 }

/-- `get_linger(&self)` (socket.rs 432-447): the buffer is
`&mut linger as *mut linger` (the two-`c_int` pair), the length argument is
`mem::size_of::<i32>() as i32`. -/
def get_linger_call : FlagCall :=
  { opt := .SRTO_LINGER, bufTy := .lingerPair, optlen := RustTy.byteWidth .i32 }

/-- `set_input_bandwith(&self, bytes_per_sec: i64)` (socket.rs 822-832):
`&bytes_per_sec as *const i64` with `mem::size_of::<i64>()` — a correctly
matched accessor, for contrast. -/
def set_input_bandwith_call : FlagCall :=
  { opt := .SRTO_INPUTBW, bufTy := .i64, optlen := RustTy.byteWidth .i64 }

/-- `set_send_blocking(&self, blocking: bool)` (socket.rs 855-865):
`&blocking as *const bool` with `mem::size_of::<bool>()` — matched. -/
def set_send_blocking_call : FlagCall :=
  { opt := .SRTO_SNDSYN, bufTy := .bool, optlen := RustTy.byteWidth .bool }

/-- `set_mss(&self, bytes: i32)` (socket.rs 1045-1055): `&bytes as
*const c_int` with `mem::size_of::<i32>()` — matched. -/
def set_mss_call : FlagCall :=
  { opt := .SRTO_MSS, bufTy := .i32, optlen := RustTy.byteWidth .i32 }

/-- The error variants this layer needs.  `sockFail` is `SrtError::SockFail`,
the variant socket.rs returns directly on address-resolution failure;
`native code` stands for the outcome of the §4.2 translation of a failed
native call, keeping the raw negative result for diagnostics. -/
inductive SrtError
  | sockFail
  | native (code : Int)
deriving DecidableEq, Repr

/-- Modelled from the spec: `crate::error::handle_result` lives in error.rs,
which is not under src/.  Per §4.2 every native call returns a signed result
that is either a non-negative success value or a sentinel failure value; on a
sentinel failure the layer queries the side-channel last-error mechanism and
translates it into the closed error enumeration (§7: translated at the point
of the call, never swallowed).  The translated error is modelled abstractly
as `SrtError.native code`. -/
def handle_result {α : Type} (ok : α) (code : Int) : Except SrtError α :=
  if 0 ≤ code then Except.ok ok else Except.error (SrtError.native code)

/-- A generic socket address, the parsed form produced by the address bridge
(`OsSocketAddr::into_addr`). -/
structure SocketAddr where
  host : Nat
  port : Nat
deriving DecidableEq, Repr

/-- The literal `"0.0.0.0:0".parse().unwrap()` used as the discarded success
value on native-failure paths of `local_addr` / `peer_addr` / `accept`. -/
def addrAny : SocketAddr := { host := 0, port := 0 }

/-- The socket handle: one native identifier (socket.rs 37-40). -/
structure SrtSocket where
  id : Int
deriving DecidableEq, Repr

/-- Result of running a wrapper function: a normal `Ok`, a returned error, or
a Rust panic (an `unwrap` on `None` or an out-of-bounds string slice). -/
inductive Outcome (α : Type)
  | ok (a : α)
  | err (e : SrtError)
  | panicked
deriving DecidableEq, Repr

/-- Lift the value `handle_result` produced into an `Outcome`. -/
def Outcome.ofExcept {α : Type} : Except SrtError α → Outcome α
  | .ok a => .ok a
  | .error e => .err e

/-- `local_addr` (socket.rs 222-237) as a function of the raw
`srt_getsockname` result and of the parse of the buffer the native layer
filled (`OsSocketAddr::into_addr()`, `none` when the family/length of the
buffer is unrecognized).  On `result == -1` the discarded default address is
routed through `handle_result` with the failing code; otherwise the parse is
`unwrap()`ed — a panic when it is `none` — and routed with code `0`. -/
def local_addr (result : Int) (parsed : Option SocketAddr) : Outcome SocketAddr :=
  if result = -1 then
    Outcome.ofExcept (handle_result addrAny result)
  else
    match parsed with
    | none => Outcome.panicked
    | some a => Outcome.ofExcept (handle_result a 0)

/-- `peer_addr` (socket.rs 238-253): same shape as `local_addr` except that
the success branch routes the parsed address with the original `result`. -/
def peer_addr (result : Int) (parsed : Option SocketAddr) : Outcome SocketAddr :=
  if result = -1 then
    Outcome.ofExcept (handle_result addrAny result)
  else
    match parsed with
    | none => Outcome.panicked
    | some a => Outcome.ofExcept (handle_result a result)

/-- `accept` (socket.rs 254-269) as a function of the raw `srt_accept` result
(a new socket identifier on success) and of the parse of the peer-address
buffer.  On success the peer address is `unwrap()`ed — a panic if `none` —
and a brand-new handle `{ id := result }` is returned. -/
def accept (result : Int) (parsed : Option SocketAddr) :
    Outcome (SrtSocket × SocketAddr) :=
  if result = -1 then
    Outcome.ofExcept (handle_result ({ id := 0 }, addrAny) result)
  else
    match parsed with
    | none => Outcome.panicked
    | some a => Outcome.ok ({ id := result }, a)

/-- `close` (socket.rs 270-273): the raw `srt_close` result goes straight
through `handle_result` with no special-casing. -/
def close (result : Int) : Except SrtError Unit :=
  handle_result () result

/-- `rendezvous` (socket.rs 68-98) as a function of the two resolution
outcomes (`to_socket_addrs()`: `none` when resolution itself errors, `some l`
for the candidate list whose first element `next()` yields) and of the native
`srt_rendezvous` result for the pair of addresses actually passed.  Returns
the call's result together with the list of native invocations performed, so
"no native call occurs" is the second component being `[]`.  Each failing
resolution returns `SrtError::SockFail` before the native call is reached; a
resolution that yields no candidate falls into the final `else` branch. -/
def rendezvous (localRes remoteRes : Option (List SocketAddr))
    (native : SocketAddr → SocketAddr → Int) :
    Except SrtError Unit × List (SocketAddr × SocketAddr) :=
  match localRes with
  | none => (Except.error SrtError.sockFail, [])
  | some laddrs =>
    match remoteRes with
    | none => (Except.error SrtError.sockFail, [])
    | some raddrs =>
      match laddrs.head?, raddrs.head? with
      | some l, some r => (handle_result () (native l r), [(l, r)])
      | _, _ => (Except.error SrtError.sockFail, [])

/-- Body of `bind`'s `for addr in addrs` loop (socket.rs 54-64): the first
iteration ends in an unconditional `return`, so at most one candidate ever
reaches `srt_bind`; `none` means the loop finished without returning (empty
iterator). -/
def bindLoop (sock : SrtSocket) (native : SocketAddr → Int) :
    List SocketAddr → Option (Except SrtError SrtSocket × List SocketAddr)
  | [] => none
  | a :: _ => some (handle_result sock (native a), [a])

/-- `bind` (socket.rs 52-67) as a function of the resolution outcome and of
the native `srt_bind` result for the address actually passed; the second
component lists the native invocations performed. -/
def bind (sock : SrtSocket) (res : Option (List SocketAddr))
    (native : SocketAddr → Int) :
    Except SrtError SrtSocket × List SocketAddr :=
  match res with
  | none => (Except.error SrtError.sockFail, [])
  | some addrs =>
    match bindLoop sock native addrs with
    | some out => out
    | none => (Except.error SrtError.sockFail, [])

/-- `connect` (socket.rs 99-119): resolution error or an empty candidate
iterator returns `SrtError::SockFail`; otherwise exactly the first candidate
(`target.next()`) is passed to `srt_connect`. -/
def connect (res : Option (List SocketAddr)) (native : SocketAddr → Int) :
    Except SrtError Unit × List SocketAddr :=
  match res with
  | none => (Except.error SrtError.sockFail, [])
  | some addrs =>
    match addrs.head? with
    | none => (Except.error SrtError.sockFail, [])
    | some a => (handle_result () (native a), [a])

/-- One byte-string `srt_setsockflag` invocation: the option identifier, the
bytes whose pointer is passed, and the length argument. -/
structure StrFlagCall where
  opt : SRT_SOCKOPT
  bytes : List Nat
  optlen : Nat
deriving DecidableEq, Repr

/-- `set_packet_filter(&self, filter: &str)` (socket.rs 1067-1077): the code
slices `filter[..512]` unconditionally, which panics (`none`) when the input
is shorter than 512 bytes; otherwise `filter[..512].as_ptr()` and
`filter[..512].len()` hand exactly the first 512 bytes to the native call. -/
def set_packet_filter (filter : List Nat) : Option StrFlagCall :=
  if filter.length < 512 then none
  else
    some { opt := .SRTO_PACKETFILTER, bytes := filter.take 512,
           optlen := (filter.take 512).length }

/-- `set_passphrase(&self, passphrase: &str)` (socket.rs 1078-1088): the raw
input pointer and its own length `passphrase.len()` are passed unchecked —
no cap, no truncation, no bounds test. -/
def set_passphrase (passphrase : List Nat) : Option StrFlagCall :=
  some { opt := .SRTO_PASSPHRASE, bytes := passphrase,
         optlen := passphrase.length }

/-- `set_stream_id(&self, id: &str)` (socket.rs 1263-1273): like
`set_passphrase`, the raw input and `id.len()` are passed unchecked to the
option `SRTO_STREAMID`. -/
def set_stream_id (id : List Nat) : Option StrFlagCall :=
  some { opt := .SRTO_STREAMID, bytes := id, optlen := id.length }

/-- `mem::size_of_val(&id)` for `id: String` on the 64-bit target: the size
of the `String` struct itself (pointer, capacity, length — three words), not
of its character buffer. -/
def rustStringStructByteSize : Nat := 24

/-- `get_stream_id(&self)` (socket.rs 729-742): the buffer is the byte buffer
of a 512-space `String`, the length argument is `mem::size_of_val(&id)` (the
24-byte `String` struct size), and the option identifier queried is
`SRTO_STATE` — not `SRTO_STREAMID`. -/
def get_stream_id_call : FlagCall :=
  { opt := .SRTO_STATE, bufTy := .bytes 512,
    optlen := rustStringStructByteSize }

/-- `SRT_TRACEBSTATS`: the fixed-layout statistics aggregate of socket.rs
124-208.  All fields are zero-initialized before the native call fills the
struct; the native `f64` rate fields (`mbpsSendRate`, `msRTT`, ...) are
modelled over `Int` since only their zero initialization is observable in
this layer. -/
structure SRT_TRACEBSTATS where
  (msTimeStamp pktSentTotal pktRecvTotal pktSndLossTotal pktRcvLossTotal : Int)
  (pktRetransTotal pktSentACKTotal pktRecvACKTotal pktSentNAKTotal : Int)
  (pktRecvNAKTotal usSndDurationTotal pktSndDropTotal pktRcvDropTotal : Int)
  (pktRcvUndecryptTotal byteSentTotal byteRecvTotal byteRcvLossTotal : Int)
  (byteRetransTotal byteSndDropTotal byteRcvDropTotal byteRcvUndecryptTotal : Int)
  (pktSent pktRecv pktSndLoss pktRcvLoss pktRetrans pktRcvRetrans : Int)
  (pktSentACK pktRecvACK pktSentNAK pktRecvNAK mbpsSendRate mbpsRecvRate : Int)
  (usSndDuration pktReorderDistance pktRcvAvgBelatedTime pktRcvBelated : Int)
  (pktSndDrop pktRcvDrop pktRcvUndecrypt byteSent byteRecv byteRcvLoss : Int)
  (byteRetrans byteSndDrop byteRcvDrop byteRcvUndecrypt usPktSndPeriod : Int)
  (pktFlowWindow pktCongestionWindow pktFlightSize msRTT mbpsBandwidth : Int)
  (byteAvailSndBuf byteAvailRcvBuf mbpsMaxBW byteMSS pktSndBuf byteSndBuf : Int)
  (msSndBuf msSndTsbPdDelay pktRcvBuf byteRcvBuf msRcvBuf msRcvTsbPdDelay : Int)
  (pktSndFilterExtraTotal pktRcvFilterExtraTotal pktRcvFilterSupplyTotal : Int)
  (pktRcvFilterLossTotal pktSndFilterExtra pktRcvFilterExtra : Int)
  (pktRcvFilterSupply pktRcvFilterLoss pktReorderTolerance : Int)
  (pktSentUniqueTotal pktRecvUniqueTotal byteSentUniqueTotal : Int)
  (byteRecvUniqueTotal pktSentUnique pktRecvUnique byteSentUnique : Int)
  (byteRecvUnique : Int)

/-- The zero-initialized aggregate `bistats` builds before calling
`srt_bstats` (socket.rs 125-208: every field is written `0` or `0.0`). -/
def bistatsStatsInit : SRT_TRACEBSTATS :=
  { msTimeStamp := 0, pktSentTotal := 0, pktRecvTotal := 0,
    pktSndLossTotal := 0, pktRcvLossTotal := 0, pktRetransTotal := 0,
    pktSentACKTotal := 0, pktRecvACKTotal := 0, pktSentNAKTotal := 0,
    pktRecvNAKTotal := 0, usSndDurationTotal := 0, pktSndDropTotal := 0,
    pktRcvDropTotal := 0, pktRcvUndecryptTotal := 0, byteSentTotal := 0,
    byteRecvTotal := 0, byteRcvLossTotal := 0, byteRetransTotal := 0,
    byteSndDropTotal := 0, byteRcvDropTotal := 0, byteRcvUndecryptTotal := 0,
    pktSent := 0, pktRecv := 0, pktSndLoss := 0, pktRcvLoss := 0,
    pktRetrans := 0, pktRcvRetrans := 0, pktSentACK := 0, pktRecvACK := 0,
    pktSentNAK := 0, pktRecvNAK := 0, mbpsSendRate := 0, mbpsRecvRate := 0,
    usSndDuration := 0, pktReorderDistance := 0, pktRcvAvgBelatedTime := 0,
    pktRcvBelated := 0, pktSndDrop := 0, pktRcvDrop := 0,
    pktRcvUndecrypt := 0, byteSent := 0, byteRecv := 0, byteRcvLoss := 0,
    byteRetrans := 0, byteSndDrop := 0, byteRcvDrop := 0,
    byteRcvUndecrypt := 0, usPktSndPeriod := 0, pktFlowWindow := 0,
    pktCongestionWindow := 0, pktFlightSize := 0, msRTT := 0,
    mbpsBandwidth := 0, byteAvailSndBuf := 0, byteAvailRcvBuf := 0,
    mbpsMaxBW := 0, byteMSS := 0, pktSndBuf := 0, byteSndBuf := 0,
    msSndBuf := 0, msSndTsbPdDelay := 0, pktRcvBuf := 0, byteRcvBuf := 0,
    msRcvBuf := 0, msRcvTsbPdDelay := 0, pktSndFilterExtraTotal := 0,
    pktRcvFilterExtraTotal := 0, pktRcvFilterSupplyTotal := 0,
    pktRcvFilterLossTotal := 0, pktSndFilterExtra := 0,
    pktRcvFilterExtra := 0, pktRcvFilterSupply := 0, pktRcvFilterLoss := 0,
    pktReorderTolerance := 0, pktSentUniqueTotal := 0,
    pktRecvUniqueTotal := 0, byteSentUniqueTotal := 0,
    byteRecvUniqueTotal := 0, pktSentUnique := 0, pktRecvUnique := 0,
    byteSentUnique := 0, byteRecvUnique := 0 }

/-- Signature facts of `pub fn bistats(&self)` (socket.rs 124): the only
parameter is the receiver — there is no clear-interval parameter. -/
structure BistatsSig where
  hasClearIntervalParam : Bool
deriving DecidableEq, Repr

/-- The signature of `bistats` in socket.rs. -/
def bistatsSig : BistatsSig := { hasClearIntervalParam := false }

/-- The third argument of the `srt_bstats` call (socket.rs 213): the integer
literal `1`. -/
def bistatsClearArg : Int := 1

/-- `bistats` (socket.rs 124-217) as a function of the raw `srt_bstats`
result: the zero-initialized aggregate is routed through `handle_result`,
and the clear flag handed to the native call is `bistatsClearArg`,
independent of any caller input. -/
def bistats (result : Int) : Except SrtError SRT_TRACEBSTATS × Int :=
  (handle_result bistatsStatsInit result, bistatsClearArg)

/-- Rust ownership discipline of a type: `copyable` when the type implements
`Copy` (a by-value use duplicates the value and the original binding stays
live and usable), `affine` otherwise (a by-value use moves the value out and
the moved-from binding can never be used again). -/
inductive Ownership
  | copyable
  | affine
deriving DecidableEq, Repr

/-- `SrtSocket` derives `Copy` (socket.rs 37: `#[derive(Copy, Clone, Debug)]`). -/
def srtSocketOwnership : Ownership := .copyable

/-- `pub fn close(self)` (socket.rs 270) takes its receiver by value. -/
def closeTakesSelfByValue : Bool := true

/-- Operations issuable through one handle binding. -/
inductive HandleOp
  | opBind
  | opListen
  | opConnect
  | opSend
  | opRecv
  | opClose
  | opGetFlag
  | opSetFlag
deriving DecidableEq, Repr

/-- Under the affine discipline a by-value `close` consumes the binding, so a
trace is accepted only when nothing follows a `close`. -/
def affineAccepts : List HandleOp → Bool
  | [] => true
  | .opClose :: rest => rest.isEmpty
  | _ :: rest => affineAccepts rest

/-- Whether Rust's type system accepts a sequence of operations issued
through one binding of the handle: for a `Copy` type every by-value use is a
copy, so every trace compiles; for an affine type nothing may follow the
consuming `close`. -/
def acceptsTrace : Ownership → List HandleOp → Bool
  | .copyable, _ => true
  | .affine, t => affineAccepts t

/-- An address-specification resolution that produced no concrete address:
either `to_socket_addrs()` itself errored (`none`) or the candidate list is
empty. -/
def resolvesNone : Option (List SocketAddr) → Bool
  | none => true
  | some l => l.isEmpty

/-- C1: the claim states that every option accessor passes a byte width that
exactly matches the native representation of its declared value type, naming
`set_time_drift_tracer` (its `bool` argument), `get_input_bandwith` (its
`i64` buffer) and `get_linger` (the linger pair) as examples.  In the code
all three of those call sites pass a mismatched width: `set_time_drift_tracer`
passes `size_of::<i64>()` = 8 for a 1-byte `bool`, `get_input_bandwith`
passes `size_of::<i32>()` = 4 for an 8-byte `i64`, and `get_linger` passes 4
for the 8-byte linger pair — while e.g. `set_input_bandwith`,
`set_send_blocking` and `set_mss` are correctly matched. -/
theorem width_mismatch_at_claimed_call_sites :
    set_time_drift_tracer_call.widthMatches = false ∧
    get_input_bandwith_call.widthMatches = false ∧
    get_linger_call.widthMatches = false ∧
    set_input_bandwith_call.widthMatches = true ∧
    set_send_blocking_call.widthMatches = true ∧
    set_mss_call.widthMatches = true := by
  decide

/-- C2: the claim states that `close()` consumes the handle so that no
further operation can be issued through the same handle value.  `SrtSocket`
derives `Copy`, so the by-value `close(self)` merely copies the handle and
Rust's type system accepts the use-after-close trace `[close, send]` through
the same binding — the affine (non-`Copy`) discipline the claim describes
would have rejected it. -/
theorem copy_handle_accepts_use_after_close :
    acceptsTrace srtSocketOwnership [HandleOp.opClose, HandleOp.opSend] = true ∧
    acceptsTrace Ownership.affine [HandleOp.opClose, HandleOp.opSend] = false ∧
    srtSocketOwnership = Ownership.copyable ∧
    closeTakesSelfByValue = true := by
  decide

/-- C3: the claim states that `set_stream_id` followed by `get_stream_id`
round-trips because both address the same native option identifier.  In the
code the setter writes `SRTO_STREAMID` but the getter queries `SRTO_STATE`
(and passes `size_of_val` of the `String` struct, 24, as the buffer length
instead of the 512-byte buffer size), so the two accessors address different
options and the round-trip fails for every value. -/
theorem stream_id_accessors_address_different_options :
    (set_stream_id [104, 105]).map (fun c => c.opt) =
      some SRT_SOCKOPT.SRTO_STREAMID ∧
    get_stream_id_call.opt = SRT_SOCKOPT.SRTO_STATE ∧
    get_stream_id_call.opt ≠ SRT_SOCKOPT.SRTO_STREAMID ∧
    get_stream_id_call.optlen = 24 ∧
    get_stream_id_call.optlen ≠ 512 := by
  decide

/-- C4 counterexample: `bistats` has no clear-interval parameter at all —
its signature is `pub fn bistats(&self)` — and the flag handed to
`srt_bstats` is the literal `1` on every call, so the flag cannot equal a
caller-chosen argument. -/
theorem bistats_clear_flag_hardcoded :
    bistatsSig.hasClearIntervalParam = false ∧
    (bistats 0).2 = 1 ∧
    (bistats (-1)).2 = 1 := by
  exact ⟨rfl, rfl, rfl⟩

/-- C4 (amended): `bistats` takes no clear-interval parameter; every
invocation passes the hardcoded constant `1` (clear the interval counters)
as the flag of the native statistics call. -/
theorem bistats_always_clears :
    ∀ r : Int,
      (bistats r).2 = bistatsClearArg ∧
      bistatsClearArg = 1 ∧
      bistatsSig.hasClearIntervalParam = false :=
  fun _ => ⟨rfl, rfl, rfl⟩

/-- C5 counterexample: when the native close reports the anomalous result
`-1`, `close` returns the translated error, not `Ok(())`. -/
theorem close_errs_on_negative_result :
    close (-1) = Except.error (SrtError.native (-1)) := by
  rfl

/-- C5 (amended): `close` routes the raw native result through the single
translation point like every other call: it returns `Ok(())` exactly when
the native close result is non-negative, and returns the translated native
error when the result is negative — so `close` can fail from the caller's
perspective. -/
theorem close_ok_iff_nonneg :
    ∀ r : Int,
      (0 ≤ r → close r = Except.ok ()) ∧
      (r < 0 → close r = Except.error (SrtError.native r)) := by
  intro r
  constructor
  · intro h
    simp [close, handle_result, h]
  · intro h
    simp [close, handle_result, not_le.mpr h]

/-- C5 witness: the amended behavior evaluated at the native results `0`
and `-1`. -/
theorem close_ok_iff_nonneg_witness :
    close 0 = Except.ok () ∧
    close (-1) = Except.error (SrtError.native (-1)) :=
  ⟨(close_ok_iff_nonneg 0).1 (by norm_num),
   (close_ok_iff_nonneg (-1)).2 (by norm_num)⟩

/-- C6 counterexample: a 513-byte passphrase (one byte over the 512-byte
cap) is passed to the native call unchanged — neither a deterministic
failure nor a truncation — while the same 513-byte input to
`set_packet_filter` is truncated to 512 bytes, and a 511-byte packet-filter
input panics; so the 512-cap policy neither holds for all inputs of one
option nor is shared across the byte-string options. -/
theorem bytestring_policy_inconsistent :
    set_passphrase (List.replicate 513 7) =
      some { opt := SRT_SOCKOPT.SRTO_PASSPHRASE,
             bytes := List.replicate 513 7, optlen := 513 } ∧
    set_packet_filter (List.replicate 513 7) =
      some { opt := SRT_SOCKOPT.SRTO_PACKETFILTER,
             bytes := List.replicate 512 7, optlen := 512 } ∧
    set_packet_filter (List.replicate 511 7) = none := by
  refine ⟨?_, ?_, ?_⟩
  · simp only [set_passphrase, List.length_replicate]
  · simp only [set_packet_filter, List.length_replicate, List.take_replicate]
    norm_num
  · simp only [set_packet_filter, List.length_replicate]
    norm_num

/-- C6 (amended): the byte-string options do not share one policy:
`set_passphrase` and `set_stream_id` pass the input to the native call
unchanged at every length with no cap enforced, while `set_packet_filter`
unconditionally takes the first 512 bytes — panicking when the input is
shorter than 512 bytes and truncating longer inputs to exactly 512 bytes. -/
theorem bytestring_policies :
    ∀ s : List Nat,
      set_passphrase s =
        some { opt := SRT_SOCKOPT.SRTO_PASSPHRASE, bytes := s,
               optlen := s.length } ∧
      set_stream_id s =
        some { opt := SRT_SOCKOPT.SRTO_STREAMID, bytes := s,
               optlen := s.length } ∧
      (s.length < 512 → set_packet_filter s = none) ∧
      (512 ≤ s.length → set_packet_filter s =
        some { opt := SRT_SOCKOPT.SRTO_PACKETFILTER, bytes := s.take 512,
               optlen := 512 }) := by
  intro s
  refine ⟨rfl, rfl, fun h => ?_, fun h => ?_⟩
  · simp [set_packet_filter, h]
  · simp [set_packet_filter, Nat.not_lt.mpr h, List.length_take,
          Nat.min_eq_left h]

/-- C6 witness: the amended policies evaluated at a 300-byte and a 600-byte
input. -/
theorem bytestring_policies_witness :
    set_packet_filter (List.replicate 300 1) = none ∧
    set_packet_filter (List.replicate 600 1) =
      some { opt := SRT_SOCKOPT.SRTO_PACKETFILTER,
             bytes := (List.replicate 600 1).take 512, optlen := 512 } :=
  ⟨(bytestring_policies (List.replicate 300 1)).2.2.1
     (by rw [List.length_replicate]; norm_num),
   (bytestring_policies (List.replicate 600 1)).2.2.2
     (by rw [List.length_replicate]; norm_num)⟩

/-- C7: the claim states that when the native layer reports success but the
address buffer is unparseable, `local_addr`, `peer_addr` and `accept` return
a distinguishable error.  In the code all three `unwrap()` the parse, so a
successful native result combined with an unparseable buffer panics instead
of returning an error. -/
theorem addr_parse_failure_panics :
    local_addr 0 none = Outcome.panicked ∧
    peer_addr 0 none = Outcome.panicked ∧
    accept 5 none = Outcome.panicked := by
  decide

/-- C8: if either address specification given to `rendezvous` fails to
resolve to a concrete address, no native call occurs and the address error
(`SrtError::SockFail`, the layer's resolution-failure variant) is returned;
conversely any native invocation implies both specifications resolved. -/
theorem rendezvous_resolution_guard :
    ∀ (lres rres : Option (List SocketAddr))
      (native : SocketAddr → SocketAddr → Int),
      ((resolvesNone lres || resolvesNone rres) = true →
        rendezvous lres rres native = (Except.error SrtError.sockFail, [])) ∧
      ((rendezvous lres rres native).2 ≠ [] →
        resolvesNone lres = false ∧ resolvesNone rres = false) := by
  intro lres rres native
  rcases lres with _ | l
  · exact ⟨fun _ => rfl, fun h => (h rfl).elim⟩
  rcases rres with _ | r
  · exact ⟨fun _ => rfl, fun h => (h rfl).elim⟩
  rcases l with _ | ⟨a, as⟩
  · rcases r with _ | ⟨b, bs⟩ <;> exact ⟨fun _ => rfl, fun h => (h rfl).elim⟩
  rcases r with _ | ⟨b, bs⟩
  · exact ⟨fun _ => rfl, fun h => (h rfl).elim⟩
  · refine ⟨fun h => ?_, fun _ => ⟨rfl, rfl⟩⟩
    simp [resolvesNone] at h

/-- C8 witness: a failing local resolution with a resolvable remote returns
the address error with no native call. -/
theorem rendezvous_resolution_guard_witness :
    rendezvous none (some [{ host := 1, port := 2 }]) (fun _ _ => 0) =
      (Except.error SrtError.sockFail, []) :=
  (rendezvous_resolution_guard none (some [{ host := 1, port := 2 }])
    (fun _ _ => 0)).1 rfl

/-- C9: whenever the address specification resolves to one or more
candidates, `bind` and `connect` pass exactly the first candidate to the
native call and never any later one: the native-call lists are the
singleton of the head candidate. -/
theorem first_candidate_only :
    ∀ (sock : SrtSocket) (res : Option (List SocketAddr))
      (native : SocketAddr → Int) (a : SocketAddr) (rest : List SocketAddr),
      res = some (a :: rest) →
        (bind sock res native).2 = [a] ∧
        (connect res native).2 = [a] ∧
        (bind sock res native).1 = handle_result sock (native a) ∧
        (connect res native).1 = handle_result () (native a) := by
  intro sock res native a rest h
  subst h
  exact ⟨rfl, rfl, rfl, rfl⟩

/-- C9 witness: a two-candidate resolution, showing only the first candidate
reaches the native call. -/
theorem first_candidate_only_witness :
    (bind { id := 4 }
      (some [{ host := 1, port := 2 }, { host := 3, port := 4 }])
      (fun _ => 0)).2 = [{ host := 1, port := 2 }] ∧
    (connect (some [{ host := 1, port := 2 }, { host := 3, port := 4 }])
      (fun _ => 0)).2 = [{ host := 1, port := 2 }] ∧
    (bind { id := 4 }
      (some [{ host := 1, port := 2 }, { host := 3, port := 4 }])
      (fun _ => 0)).1 = handle_result { id := 4 } 0 ∧
    (connect (some [{ host := 1, port := 2 }, { host := 3, port := 4 }])
      (fun _ => 0)).1 = handle_result () 0 :=
  first_candidate_only { id := 4 }
    (some [{ host := 1, port := 2 }, { host := 3, port := 4 }])
    (fun _ => 0) { host := 1, port := 2 } [{ host := 3, port := 4 }] rfl

/-- C10: `set_packet_filter` requires an input of at least 512 bytes: every
shorter input panics (the unconditional `filter[..512]` slice), and for
inputs of 512 bytes or more exactly the first 512 bytes are passed to the
native engine. -/
theorem packet_filter_slice_behavior :
    ∀ filter : List Nat,
      (filter.length < 512 → set_packet_filter filter = none) ∧
      (512 ≤ filter.length →
        set_packet_filter filter =
          some { opt := SRT_SOCKOPT.SRTO_PACKETFILTER,
                 bytes := filter.take 512, optlen := 512 } ∧
        (filter.take 512).length = 512) := by
  intro filter
  refine ⟨fun h => ?_, fun h => ⟨?_, ?_⟩⟩
  · simp [set_packet_filter, h]
  · simp [set_packet_filter, Nat.not_lt.mpr h, List.length_take,
          Nat.min_eq_left h]
  · simp [List.length_take, Nat.min_eq_left h]

/-- C10 witness: the slice behavior evaluated at a 100-byte input (panic)
and a 513-byte input (first 512 bytes passed). -/
theorem packet_filter_slice_behavior_witness :
    set_packet_filter (List.replicate 100 9) = none ∧
    set_packet_filter (List.replicate 513 9) =
      some { opt := SRT_SOCKOPT.SRTO_PACKETFILTER,
             bytes := (List.replicate 513 9).take 512, optlen := 512 } :=
  ⟨(packet_filter_slice_behavior (List.replicate 100 9)).1
     (by rw [List.length_replicate]; norm_num),
   ((packet_filter_slice_behavior (List.replicate 513 9)).2
     (by rw [List.length_replicate]; norm_num)).1⟩

end SrtRs
